import Mathlib

/-!
Shallow embedding of the Tizen GPS background service
(`gpsExtraService/src/location_manager.c`) together with proofs about
its subscription state machine, warm-start latch, message payloads and
teardown behaviour.

External collaborators (location provider, message port, runtime info,
`ecore` timers) are modelled by explicit parameters carrying the result
of each external call, and by a trace of emitted external calls
(`Ev`).  Machine doubles are modelled as rationals, `time_t` as `Int`.
-/

namespace GpsService

/-- The C enum `location_service_state_e`. -/
inductive ServiceStateE
  | disabled
  | enabled
  | searching
deriving DecidableEq, Repr

/-- External calls made by the service: provider management, callback
registration, IPC sends and timer scheduling. -/
inductive Ev
  | createMgr
  | destroyMgr
  | startMgr
  | stopMgr
  | setStateCb
  | unsetStateCb
  | setPosCb (interval : Int)
  | unsetPosCb
  | setSatCb (interval : Int)
  | unsetSatCb
  | portCheck
  | sendMsg (payload : List (String × String))
  | timerAdd
  | getLocation
  | getLastLocation
  | getSatellite
  | getLastSatellite
  | foreachSat
  | getNmea
deriving DecidableEq, Repr

/-- Mirror of `s_gps_data`: the cached position reading. -/
structure GpsData where
  altitude : ℚ
  latitude : ℚ
  longitude : ℚ
  climb : ℚ
  direction : ℚ
  speed : ℚ
  horizontal : ℚ
  vertical : ℚ
  level : Int
  timestamp : Int
deriving DecidableEq, Repr

/-- Mirror of `s_sat_data`: the cached satellite reading. -/
structure SatData where
  active : Int
  inview : Int
  timestamp : Int
deriving DecidableEq, Repr

/-- Mirror of `s_location_data`: the service control record. `manager` records
whether the provider handle is non-NULL. -/
structure LocData where
  gpsEnabled : Bool
  satEnabled : Bool
  manager : Bool
  state : ServiceStateE
  connected : Bool
  data_sent : Bool
deriving DecidableEq, Repr

/-- Whole mutable state, plus the number of outstanding `ecore` retry
timers (the C code discards the handle returned by `ecore_timer_add`,
so the timers are only removed when their callback returns CANCEL). -/
structure St where
  loc : LocData
  gps : GpsData
  sat : SatData
  timers : Nat
deriving DecidableEq, Repr

def POSITION_UPDATE_INTERVAL : Int := 3

def SATELLITE_UPDATE_INTERVAL : Int := 10

def CHAR_BUFF_SIZE : Nat := 20

def MAX_TIME_DIFF : Int := 30

def MESSAGE_TYPE_POSITION_UPDATE : String := "POSITION_UPDATE"

def MESSAGE_TYPE_SATELLITES_UPDATE : String := "SATELLITES_UPDATE"

def keyMsgType : String := "msg_type"

def keyLatitude : String := "latitude"

def keyLongitude : String := "longitude"

def keyAltitude : String := "altitude"

def keyActive : String := "active"

def keyInview : String := "inview"

/-- Static initializer of `s_gps_data`. -/
def initGpsData : GpsData :=
  { altitude := 0, latitude := 0, longitude := 0, climb := 0, direction := 0,
    speed := 0, horizontal := 0, vertical := 0, level := 0, timestamp := 0 }

/-- Static initializer of `s_sat_data`. -/
def initSatData : SatData := { active := 0, inview := 0, timestamp := 0 }

/-- Static initializer of `s_location_data`.  Note that the C source
initializes `.data_sent = true`. -/
def initLocData : LocData :=
  { gpsEnabled := false, satEnabled := false, manager := false,
    state := ServiceStateE.disabled, connected := false, data_sent := true }

/-- Process state at program start. -/
def startState : St :=
  { loc := initLocData, gps := initGpsData, sat := initSatData, timers := 0 }

/-- Zero-pad a digit string on the left to six characters. -/
def pad6 (s : String) : String :=
  String.mk (List.replicate (6 - s.length) '0') ++ s

/-- The value `q` scaled by one million and rounded to the nearest integer, as
`printf` percent-f does for in-range decimals: the floor of
`q * 1000000 + 1/2`, computed on numerator and denominator. -/
def scale6 (q : ℚ) : Int :=
  Int.ediv (2 * q.num * 1000000 + (q.den : Int)) (2 * (q.den : Int))

/-- Truncation of `snprintf` into a `CHAR_BUFF_SIZE` buffer: at most 19
characters plus the terminator. -/
def takeBuf (s : String) : String := String.mk (s.data.take (CHAR_BUFF_SIZE - 1))

/-- The `printf` percent-f conversion: six fractional digits, rounded to
nearest. -/
def fmtF (q : ℚ) : String :=
  let n := scale6 q
  let sign := if n < 0 then "-" else ""
  let m := n.natAbs
  sign ++ toString (m / 1000000) ++ "." ++ pad6 (toString (m % 1000000))

/-- Conversion by `snprintf` of a double into a `CHAR_BUFF_SIZE` buffer. -/
def snprintfF (q : ℚ) : String := takeBuf (fmtF q)

/-- Conversion by `snprintf` of an int (percent-d) into a `CHAR_BUFF_SIZE` buffer. -/
def snprintfD (n : Int) : String := takeBuf (toString n)

/-- Function `sendMessage`: no-op success when no peer is connected; otherwise a
single IPC send whose success is given by the environment (`sendOk`).
Bundle allocation is abstracted as always succeeding. -/
def sendMessage (s : St) (sendOk : Bool) (b : List (String × String)) :
    List Ev × Bool :=
  if !s.loc.connected then ([], true)
  else ([Ev.sendMsg b], sendOk)

/-- Payload built by `sendPosition`.  The C source (line 364) adds the
longitude string under the altitude key: `bundle_add_str( b, "altitude",
longitude_str )`. -/
def positionPayload (g : GpsData) : List (String × String) :=
  [(keyMsgType, MESSAGE_TYPE_POSITION_UPDATE),
   (keyLatitude, snprintfF g.latitude),
   (keyLongitude, snprintfF g.longitude),
   (keyAltitude, snprintfF g.longitude)]

/-- Function `sendPosition`: build the position payload and hand it to
`sendMessage`. -/
def sendPosition (s : St) (sendOk : Bool) : List Ev × Bool :=
  sendMessage s sendOk (positionPayload s.gps)

/-- Payload built by `sendSatellite`. -/
def satellitePayload (d : SatData) : List (String × String) :=
  [(keyMsgType, MESSAGE_TYPE_SATELLITES_UPDATE),
   (keyActive, snprintfD d.active),
   (keyInview, snprintfD d.inview)]

/-- Function `sendSatellite`: build the satellite payload and hand it to
`sendMessage`. -/
def sendSatellite (s : St) (sendOk : Bool) : List Ev × Bool :=
  sendMessage s sendOk (satellitePayload s.sat)

/-- Function `checkRemotePort`: on success write the probe result into
`connected`; on error only log (state untouched). -/
def checkRemotePort (s : St) (res : Option Bool) : St × List Ev :=
  match res with
  | some c => ({ s with loc := { s.loc with connected := c } }, [Ev.portCheck])
  | none => (s, [Ev.portCheck])

/-- Function `disableGPS`: unregister the position callback if a handle exists;
always clear the flag. -/
def disableGPS (s : St) : St × List Ev :=
  ({ s with loc := { s.loc with gpsEnabled := false } },
   if s.loc.manager then [Ev.unsetPosCb] else [])

/-- Function `disableSat`: unregister the satellite callback if a handle exists;
always clear the flag. -/
def disableSat (s : St) : St × List Ev :=
  ({ s with loc := { s.loc with satEnabled := false } },
   if s.loc.manager then [Ev.unsetSatCb] else [])

/-- Function `locationFinalize`: disable satellites, disable GPS, then if a
handle exists unregister the state callback, stop and destroy it;
finally clear the handle.  Outstanding retry timers are not touched
(the C code discarded the timer handle). -/
def locationFinalize (s : St) : St × List Ev :=
  let r1 := disableSat s
  let r2 := disableGPS r1.1
  let e3 := if r2.1.loc.manager then [Ev.unsetStateCb, Ev.stopMgr, Ev.destroyMgr] else []
  ({ r2.1 with loc := { r2.1.loc with manager := false } }, r1.2 ++ r2.2 ++ e3)

/-- Function `locationStop` delegates to `locationFinalize`. -/
def locationStop (s : St) : St × List Ev := locationFinalize s

/-- Result of a successful `location_manager_get_location` or
`get_last_location` call. -/
structure GpsFix where
  altitude : ℚ
  latitude : ℚ
  longitude : ℚ
  climb : ℚ
  direction : ℚ
  speed : ℚ
  horizontal : ℚ
  vertical : ℚ
  level : Int
  timestamp : Int
deriving DecidableEq, Repr

/-- Result of a successful `gps_status_get_satellite` or
`get_last_satellite` call. -/
structure SatFix where
  active : Int
  inview : Int
  timestamp : Int
deriving DecidableEq, Repr

/-- Overwrite the cached position reading with a fetched fix. -/
def writeGps (f : GpsFix) : GpsData :=
  { altitude := f.altitude, latitude := f.latitude, longitude := f.longitude,
    climb := f.climb, direction := f.direction, speed := f.speed,
    horizontal := f.horizontal, vertical := f.vertical, level := f.level,
    timestamp := f.timestamp }

/-- Overwrite the cached satellite reading with a fetched fix. -/
def writeSat (f : SatFix) : SatData :=
  { active := f.active, inview := f.inview, timestamp := f.timestamp }

/-- Function `initData`: fetch the last known location (best effort; on error the
cached reading is left as is), fail if the resulting timestamp is older
than `MAX_TIME_DIFF` relative to `now`, otherwise fetch the last known
satellite status, enumerate satellites in view, and succeed. -/
def initData (s : St) (lastLoc : Option GpsFix) (now : Int) (lastSat : Option SatFix) :
    St × List Ev × Bool :=
  let s1 := match lastLoc with
    | some f => { s with gps := writeGps f }
    | none => s
  if now - s1.gps.timestamp > MAX_TIME_DIFF then
    (s1, [Ev.getLastLocation], false)
  else
    let s2 := match lastSat with
      | some f => { s1 with sat := writeSat f }
      | none => s1
    if s2.sat.inview > 0 then
      (s2, [Ev.getLastLocation, Ev.getLastSatellite, Ev.foreachSat], true)
    else
      (s2, [Ev.getLastLocation, Ev.getLastSatellite], true)

/-- Function `initDataSend` (warm start): run `initData`; then send the satellite
snapshot and, only if that succeeded, the position snapshot; only when
everything succeeded set `data_sent := true`. -/
def initDataSend (s : St) (lastLoc : Option GpsFix) (now : Int) (lastSat : Option SatFix)
    (satSendOk posSendOk : Bool) : St × List Ev × Bool :=
  let r := initData s lastLoc now lastSat
  if !r.2.2 then (r.1, r.2.1, false)
  else
    let rs := sendSatellite r.1 satSendOk
    if !rs.2 then (r.1, r.2.1 ++ rs.1, false)
    else
      let rp := sendPosition r.1 posSendOk
      if !rp.2 then (r.1, r.2.1 ++ rs.1 ++ rp.1, false)
      else ({ r.1 with loc := { r.1.loc with data_sent := true } },
            r.2.1 ++ rs.1 ++ rp.1, true)

/-- Function `enableGPS`: idempotent guard on `gpsEnabled`; register the position
callback (unwind through `disableGPS` on failure); try the warm start
and schedule a retry timer if it failed; set the flag and succeed. -/
def enableGPS (s : St) (regOk : Bool) (lastLoc : Option GpsFix) (now : Int)
    (lastSat : Option SatFix) (satSendOk posSendOk : Bool) : St × List Ev × Bool :=
  if s.loc.gpsEnabled then (s, [], true)
  else if !regOk then
    let r := disableGPS s
    (r.1, Ev.setPosCb POSITION_UPDATE_INTERVAL :: r.2, false)
  else
    let r := initDataSend s lastLoc now lastSat satSendOk posSendOk
    let s2 := if !r.2.2 then { r.1 with timers := r.1.timers + 1 } else r.1
    let e2 := if !r.2.2 then r.2.1 ++ [Ev.timerAdd] else r.2.1
    ({ s2 with loc := { s2.loc with gpsEnabled := true } },
     Ev.setPosCb POSITION_UPDATE_INTERVAL :: e2, true)

/-- Function `enableSat`: idempotent guard on `satEnabled`; register the
satellite callback (unwind through `disableSat` on failure). -/
def enableSat (s : St) (regOk : Bool) : St × List Ev × Bool :=
  if s.loc.satEnabled then (s, [], true)
  else if !regOk then
    let r := disableSat s
    (r.1, Ev.setSatCb SATELLITE_UPDATE_INTERVAL :: r.2, false)
  else
    ({ s with loc := { s.loc with satEnabled := true } },
     [Ev.setSatCb SATELLITE_UPDATE_INTERVAL], true)

/-- Function `locationInitialize` (named `locationInit` here): log sensor status,
create the provider handle, register the state-change callback
(finalizing on failure), start the provider (its result is ignored by
the C code, hence the unused `startOk`) and probe the remote port. -/
def locationInit (s : St) (createOk setCbOk startOk : Bool) (portRes : Option Bool) :
    St × List Ev × Bool :=
  if !createOk then (s, [Ev.createMgr], false)
  else
    let s1 := { s with loc := { s.loc with manager := true } }
    if !setCbOk then
      let r := locationFinalize s1
      (r.1, Ev.createMgr :: Ev.setStateCb :: r.2, false)
    else
      let r := checkRemotePort s1 portRes
      (r.1, Ev.createMgr :: Ev.setStateCb :: Ev.startMgr :: r.2, true)

/-- Results of the external calls a `state changed` callback may make. -/
structure Env where
  regPosOk : Bool
  regSatOk : Bool
  sensorConnected : Bool
  lastLoc : Option GpsFix
  lastSat : Option SatFix
  curLoc : Option GpsFix
  curSat : Option SatFix
  now : Int
  satSendOk : Bool
  posSendOk : Bool
deriving Repr

/-- Function `onStateChange`: record the new state; on ENABLED enable GPS, then
satellites when the sensor is connected, then fetch a current location
and satellite snapshot (best effort) and log NMEA; on DISABLED disable
satellites then GPS, in that order; otherwise do nothing. -/
def onStateChange (s : St) (st : ServiceStateE) (env : Env) : St × List Ev :=
  let s0 := { s with loc := { s.loc with state := st } }
  match st with
  | ServiceStateE.enabled =>
    let r1 := enableGPS s0 env.regPosOk env.lastLoc env.now env.lastSat
                env.satSendOk env.posSendOk
    let r2 := if env.sensorConnected then
        let q := enableSat r1.1 env.regSatOk
        (q.1, q.2.1)
      else (r1.1, ([] : List Ev))
    let s3 := match env.curLoc with
      | some f => { r2.1 with gps := writeGps f }
      | none => r2.1
    let s4 := match env.curSat with
      | some f => { s3 with sat := writeSat f }
      | none => s3
    (s4, r1.2.1 ++ r2.2 ++ [Ev.getLocation, Ev.getSatellite, Ev.getNmea])
  | ServiceStateE.disabled =>
    let r1 := disableSat s0
    let r2 := disableGPS r1.1
    (r2.1, r1.2 ++ r2.2)
  | ServiceStateE.searching => (s0, [])

/-- Function `onPositionChange`: store the reading, opportunistically enable
satellites when the sensor is connected, then forward the position only
when `data_sent` is set and the reading is fresh. -/
def onPositionChange (s : St) (latitude longitude altitude : ℚ) (timestamp now : Int)
    (sensorConnected regSatOk posSendOk : Bool) : St × List Ev :=
  let g1 := { s.gps with latitude := latitude, longitude := longitude,
                          altitude := altitude, timestamp := timestamp }
  let s1 := { s with gps := g1 }
  let r2 := if sensorConnected then
      let q := enableSat s1 regSatOk
      (q.1, q.2.1)
    else (s1, ([] : List Ev))
  if r2.1.loc.data_sent && decide (now - timestamp < MAX_TIME_DIFF) then
    let rp := sendPosition r2.1 posSendOk
    (r2.1, r2.2 ++ rp.1)
  else (r2.1, r2.2)

/-- Function `onSatelliteChange`: store the reading, enumerate satellites in view,
then forward the snapshot only when `data_sent` is set. -/
def onSatelliteChange (s : St) (num_active num_inview timestamp : Int)
    (satSendOk : Bool) : St × List Ev :=
  let s1 := { s with sat := { active := num_active, inview := num_inview,
                              timestamp := timestamp } }
  let e1 := if num_inview > 0 then [Ev.foreachSat] else ([] : List Ev)
  if s1.loc.data_sent then
    let rs := sendSatellite s1 satSendOk
    (s1, e1 ++ rs.1)
  else (s1, e1)

/-- Function `onTimerSend`: rerun the warm start; cancel this timer on success
(ECORE_CALLBACK_CANCEL), renew it otherwise. -/
def onTimerSend (s : St) (lastLoc : Option GpsFix) (now : Int) (lastSat : Option SatFix)
    (satSendOk posSendOk : Bool) : St × List Ev :=
  let r := initDataSend s lastLoc now lastSat satSendOk posSendOk
  if r.2.2 then ({ r.1 with timers := r.1.timers - 1 }, r.2.1)
  else (r.1, r.2.1)

/-- One external stimulus to the service: a lifecycle call, a provider
callback, or a retry-timer expiry. -/
inductive Op
  | init (createOk setCbOk startOk : Bool) (portRes : Option Bool)
  | stateChange (st : ServiceStateE) (env : Env)
  | posChange (latitude longitude altitude : ℚ) (timestamp now : Int)
      (sensorConnected regSatOk posSendOk : Bool)
  | satChange (num_active num_inview timestamp : Int) (satSendOk : Bool)
  | timer (lastLoc : Option GpsFix) (now : Int) (lastSat : Option SatFix)
      (satSendOk posSendOk : Bool)
  | stop
  | fin

/-- State transition of one stimulus. -/
def step (s : St) : Op → St
  | Op.init c k st p => (locationInit s c k st p).1
  | Op.stateChange st env => (onStateChange s st env).1
  | Op.posChange la lo al ts now sc rs ps => (onPositionChange s la lo al ts now sc rs ps).1
  | Op.satChange a v ts ok => (onSatelliteChange s a v ts ok).1
  | Op.timer ll now ls so po => (onTimerSend s ll now ls so po).1
  | Op.stop => (locationStop s).1
  | Op.fin => (locationFinalize s).1

-- ------------------------------------------------------------------
-- Helper lemmas
-- ------------------------------------------------------------------

/-- Function `locationFinalize` never touches the `data_sent` latch. -/
theorem locationFinalize_data_sent (s : St) :
    (locationFinalize s).1.loc.data_sent = s.loc.data_sent := by
  rcases s with ⟨⟨ge, se, m, st, c, d⟩, g, sa, t⟩
  cases m <;> simp [locationFinalize, disableSat, disableGPS]

/-- Function `locationFinalize` never touches the outstanding retry timers. -/
theorem locationFinalize_timers (s : St) :
    (locationFinalize s).1.timers = s.timers := by
  rcases s with ⟨⟨ge, se, m, st, c, d⟩, g, sa, t⟩
  cases m <;> simp [locationFinalize, disableSat, disableGPS]

-- ------------------------------------------------------------------
-- Claim theorems
-- ------------------------------------------------------------------

/-- Claim C10: when no peer is connected, `sendPosition` and
`sendSatellite` return `true` without emitting any IPC send. -/
theorem send_noPeer (s : St) (sendOk : Bool) (h : s.loc.connected = false) :
    sendPosition s sendOk = ([], true) ∧ sendSatellite s sendOk = ([], true) := by
  constructor <;> simp [sendPosition, sendSatellite, sendMessage, h]

/-- Witness for C10 at the start state (peer not connected). -/
theorem send_noPeer_witness :
    startState.loc.connected = false ∧
    sendPosition startState true = ([], true) ∧
    sendSatellite startState true = ([], true) :=
  ⟨rfl, (send_noPeer startState true rfl).1, (send_noPeer startState true rfl).2⟩

/-- Claim C9: on a DISABLED state change, from any state, both enabled
flags are cleared and the emitted unregistrations are the satellite one
first and the GPS one second (none at all when no handle exists). -/
theorem onStateChange_disabled_order (s : St) (env : Env) :
    onStateChange s ServiceStateE.disabled env =
      ({ s with loc := { s.loc with state := ServiceStateE.disabled,
                                    satEnabled := false, gpsEnabled := false } },
       if s.loc.manager then [Ev.unsetSatCb, Ev.unsetPosCb] else []) := by
  rcases s with ⟨⟨ge, se, m, st, c, d⟩, g, sa, t⟩
  cases m <;> simp [onStateChange, disableSat, disableGPS]

/-- Claim C7: `locationFinalize` is idempotent and total: the second
call changes nothing and emits no provider calls, the handle is cleared
after the first call, and a call with no live handle (e.g. before a
successful initialization) emits no provider calls at all. -/
theorem locationFinalize_idem (s : St) :
    (locationFinalize (locationFinalize s).1).1 = (locationFinalize s).1 ∧
    (locationFinalize (locationFinalize s).1).2 = [] ∧
    (locationFinalize s).1.loc.manager = false ∧
    (s.loc.manager = false → (locationFinalize s).2 = []) := by
  rcases s with ⟨⟨ge, se, m, st, c, d⟩, g, sa, t⟩
  cases m <;> simp [locationFinalize, disableSat, disableGPS]

/-- Witness for C7 at the start state (no handle present). -/
theorem locationFinalize_idem_witness :
    (locationFinalize (locationFinalize startState).1).1 = (locationFinalize startState).1 ∧
    (locationFinalize (locationFinalize startState).1).2 = [] ∧
    (locationFinalize startState).1.loc.manager = false ∧
    (locationFinalize startState).2 = [] :=
  ⟨(locationFinalize_idem startState).1, (locationFinalize_idem startState).2.1,
   (locationFinalize_idem startState).2.2.1, (locationFinalize_idem startState).2.2.2 rfl⟩

/-- Claim C5: a warm start whose fetched position is stale (`now`
minus the fetched timestamp exceeds `MAX_TIME_DIFF`) reports failure
and leaves the `data_sent` latch unchanged. -/
theorem initDataSend_stale (s : St) (f : GpsFix) (now : Int) (lastSat : Option SatFix)
    (satSendOk posSendOk : Bool) (h : now - f.timestamp > MAX_TIME_DIFF) :
    (initDataSend s (some f) now lastSat satSendOk posSendOk).2.2 = false ∧
    (initDataSend s (some f) now lastSat satSendOk posSendOk).1.loc.data_sent
      = s.loc.data_sent := by
  rcases s with ⟨⟨ge, se, m, st, c, d⟩, g, sa, t⟩
  simp [initDataSend, initData, writeGps, h]

/-- A stale fix used by concrete scenarios: everything zero, timestamp
zero. -/
def staleFix : GpsFix :=
  { altitude := 0, latitude := 0, longitude := 0, climb := 0, direction := 0,
    speed := 0, horizontal := 0, vertical := 0, level := 0, timestamp := 0 }

/-- Witness for C5: warm start at time 100 against a fix with
timestamp 0 fails and does not move the latch. -/
theorem initDataSend_stale_witness :
    (100 : Int) - staleFix.timestamp > MAX_TIME_DIFF ∧
    (initDataSend startState (some staleFix) 100 none true true).2.2 = false ∧
    (initDataSend startState (some staleFix) 100 none true true).1.loc.data_sent
      = startState.loc.data_sent :=
  ⟨by decide,
   (initDataSend_stale startState staleFix 100 none true true (by decide)).1,
   (initDataSend_stale startState staleFix 100 none true true (by decide)).2⟩

/-- Claim C6: `locationInitialize` returns `true` exactly when handle
creation and state-callback registration succeed (the ignored start
result and the port probe never affect it), and on registration failure
the handle is destroyed and cleared before returning. -/
theorem locationInit_failure_spec (s : St) (createOk setCbOk startOk : Bool)
    (portRes : Option Bool) :
    ((locationInit s createOk setCbOk startOk portRes).2.2 = (createOk && setCbOk)) ∧
    (createOk = true → setCbOk = false →
      (locationInit s createOk setCbOk startOk portRes).1.loc.manager = false ∧
      (locationInit s createOk setCbOk startOk portRes).2.1 =
        [Ev.createMgr, Ev.setStateCb, Ev.unsetSatCb, Ev.unsetPosCb,
         Ev.unsetStateCb, Ev.stopMgr, Ev.destroyMgr]) := by
  rcases s with ⟨⟨ge, se, m, st, c, d⟩, g, sa, t⟩
  cases createOk <;> cases setCbOk <;>
    rcases portRes with _ | p <;>
      simp [locationInit, locationFinalize, disableSat, disableGPS, checkRemotePort]

/-- Witness for C6: creation succeeds, registration fails. -/
theorem locationInit_failure_spec_witness :
    ((locationInit startState true false true none).2.2 = (true && false)) ∧
    (locationInit startState true false true none).1.loc.manager = false ∧
    (locationInit startState true false true none).2.1 =
      [Ev.createMgr, Ev.setStateCb, Ev.unsetSatCb, Ev.unsetPosCb,
       Ev.unsetStateCb, Ev.stopMgr, Ev.destroyMgr] :=
  ⟨(locationInit_failure_spec startState true false true none).1,
   ((locationInit_failure_spec startState true false true none).2 rfl rfl).1,
   ((locationInit_failure_spec startState true false true none).2 rfl rfl).2⟩

/-- Position reading of the round-trip scenario: latitude 37.5,
longitude 127.0, altitude 50.2. -/
def c1Gps : GpsData :=
  { initGpsData with latitude := mkRat 75 2, longitude := mkRat 127 1,
                     altitude := mkRat 251 5 }

/-- Claim C1 (refuted): the payload built by `sendPosition` fills the
altitude key from the longitude string (C source line 364), so the
round trip returns 127.000000 for altitude instead of 50.200000. -/
theorem sendPosition_altitude_from_longitude :
    (positionPayload c1Gps).lookup keyAltitude = some (snprintfF c1Gps.longitude) ∧
    snprintfF c1Gps.longitude = ("127.000000") ∧
    snprintfF c1Gps.altitude = ("50.200000") ∧
    (positionPayload c1Gps).lookup keyAltitude ≠ some (snprintfF c1Gps.altitude) := by
  decide

/-- State immediately after a successful `locationInitialize` with the
peer reachable. -/
def c2AfterInit : St := (locationInit startState true true true (some true)).1

/-- A position callback fired in that state: fresh reading (timestamp
equal to the current time 100). -/
def c2Run : St × List Ev :=
  onPositionChange c2AfterInit (mkRat 75 2) (mkRat 127 1) (mkRat 251 5) 100 100
    false true true

/-- Claim C2 (refuted in its initial-state part): the C initializer sets
`.data_sent = true`, so right after a successful initialization the
latch is already `true` and a position callback does send a message. -/
theorem forwarding_gate_open_after_init :
    c2AfterInit.loc.data_sent = true ∧
    c2Run.2 = [Ev.sendMsg (positionPayload c2Run.1.gps)] := by decide

/-- Environment of an ENABLED state change whose warm start only finds a
stale fix, so the retry timer gets scheduled. -/
def c3Env : Env :=
  { regPosOk := true, regSatOk := true, sensorConnected := false,
    lastLoc := some staleFix, lastSat := none, curLoc := none, curSat := none,
    now := 100, satSendOk := true, posSendOk := true }

/-- State after initialization and that ENABLED state change. -/
def c3AfterEnable : St :=
  (onStateChange (locationInit startState true true true (some true)).1
    ServiceStateE.enabled c3Env).1

/-- Claim C3 (refuted): the C code discards the handle returned by
`ecore_timer_add` and `locationFinalize` cancels nothing, so the retry
timer scheduled by `enableGPS` is still outstanding after finalization
while the provider handle is already destroyed. -/
theorem finalize_leaves_timer_outstanding :
    c3AfterEnable.timers = 1 ∧
    (locationFinalize c3AfterEnable).1.timers = 1 ∧
    (locationFinalize c3AfterEnable).1.loc.manager = false := by decide

/-- Function `initData` only writes the cached readings, never the control
record. -/
theorem initData_loc (s : St) (ll : Option GpsFix) (now : Int) (ls : Option SatFix) :
    (initData s ll now ls).1.loc = s.loc := by
  rcases s with ⟨l, g, sa, t⟩
  rcases ll with _ | f <;> rcases ls with _ | f2 <;>
    simp only [initData] <;> split <;> try split
  all_goals simp

/-- The warm start either leaves the latch alone or sets it to `true`;
it never clears it. -/
theorem initDataSend_data_sent (s : St) (ll : Option GpsFix) (now : Int)
    (ls : Option SatFix) (so po : Bool) :
    (initDataSend s ll now ls so po).1.loc.data_sent = s.loc.data_sent ∨
    (initDataSend s ll now ls so po).1.loc.data_sent = true := by
  have h := initData_loc s ll now ls
  simp only [initDataSend]
  split
  · left; rw [h]
  · split
    · left; rw [h]
    · split
      · left; rw [h]
      · right; simp

/-- Function `enableSat` never touches the latch. -/
theorem enableSat_data_sent (s : St) (r : Bool) :
    (enableSat s r).1.loc.data_sent = s.loc.data_sent := by
  rcases s with ⟨⟨ge, se, m, st, c, d⟩, g, sa, t⟩
  cases se <;> cases r <;> simp [enableSat, disableSat]

/-- Function `enableGPS` keeps the latch set. -/
theorem enableGPS_data_sent (s : St) (rOk : Bool) (ll : Option GpsFix) (now : Int)
    (ls : Option SatFix) (so po : Bool) (h : s.loc.data_sent = true) :
    (enableGPS s rOk ll now ls so po).1.loc.data_sent = true := by
  rcases initDataSend_data_sent s ll now ls so po with h2 | h2 <;>
    simp only [enableGPS] <;> split
  · exact h
  · split
    · rcases s with ⟨⟨ge, se, m, st, c, d⟩, g, sa, t⟩
      simp [disableGPS] at h ⊢; exact h
    · split <;> simp [h2, h]
  · exact h
  · split
    · rcases s with ⟨⟨ge, se, m, st, c, d⟩, g, sa, t⟩
      simp [disableGPS] at h ⊢; exact h
    · split <;> simp [h2, h]

/-- Function `checkRemotePort` never touches the latch. -/
theorem checkRemotePort_data_sent (s : St) (res : Option Bool) :
    (checkRemotePort s res).1.loc.data_sent = s.loc.data_sent := by
  rcases s with ⟨⟨ge, se, m, st, c, d⟩, g, sa, t⟩
  rcases res with _ | b <;> simp [checkRemotePort]

/-- Function `locationInitialize` never touches the latch. -/
theorem locationInit_data_sent (s : St) (c k st : Bool) (p : Option Bool) :
    (locationInit s c k st p).1.loc.data_sent = s.loc.data_sent := by
  rcases s with ⟨⟨ge, se, m, sst, cn, d⟩, g, sa, t⟩
  cases c <;> cases k <;> rcases p with _ | pb <;>
    simp [locationInit, locationFinalize, disableSat, disableGPS, checkRemotePort]

/-- A state change keeps the latch set. -/
theorem onStateChange_data_sent (s : St) (st : ServiceStateE) (env : Env)
    (h : s.loc.data_sent = true) :
    (onStateChange s st env).1.loc.data_sent = true := by
  cases st with
  | disabled =>
    rcases s with ⟨⟨ge, se, m, sst, cn, d⟩, g, sa, t⟩
    simp [onStateChange, disableSat, disableGPS] at h ⊢; exact h
  | searching => exact h
  | enabled =>
    rcases env with ⟨rp, rs2, sc, llo, lls, cl, cs, nw, sso, pso⟩
    have h1 := enableGPS_data_sent
      { s with loc := { s.loc with state := ServiceStateE.enabled } }
      rp llo nw lls sso pso h
    simp only [onStateChange]
    rcases cl with _ | f <;> rcases cs with _ | f2 <;> cases sc <;>
      simp [enableSat_data_sent, h1]

/-- A position callback keeps the latch set. -/
theorem onPositionChange_data_sent (s : St) (la lo al : ℚ) (ts now : Int)
    (sc rs ps : Bool) (h : s.loc.data_sent = true) :
    (onPositionChange s la lo al ts now sc rs ps).1.loc.data_sent = true := by
  simp only [onPositionChange]
  split <;> split <;> simp [enableSat_data_sent, h]

/-- A satellite callback keeps the latch set. -/
theorem onSatelliteChange_data_sent (s : St) (a v ts : Int) (ok : Bool)
    (h : s.loc.data_sent = true) :
    (onSatelliteChange s a v ts ok).1.loc.data_sent = true := by
  simp only [onSatelliteChange]
  split <;> simp [h]

/-- A retry-timer expiry keeps the latch set. -/
theorem onTimerSend_data_sent (s : St) (ll : Option GpsFix) (now : Int)
    (ls : Option SatFix) (so po : Bool) (h : s.loc.data_sent = true) :
    (onTimerSend s ll now ls so po).1.loc.data_sent = true := by
  rcases initDataSend_data_sent s ll now ls so po with h2 | h2 <;>
    simp only [onTimerSend] <;> split <;> simp [h2, h]

/-- One stimulus keeps the latch set. -/
theorem step_data_sent (s : St) (op : Op) (h : s.loc.data_sent = true) :
    (step s op).loc.data_sent = true := by
  cases op with
  | init c k st p => rw [step, locationInit_data_sent]; exact h
  | stateChange st env => rw [step]; exact onStateChange_data_sent s st env h
  | posChange la lo al ts now sc rs ps =>
    rw [step]; exact onPositionChange_data_sent s la lo al ts now sc rs ps h
  | satChange a v ts ok => rw [step]; exact onSatelliteChange_data_sent s a v ts ok h
  | timer ll now ls so po => rw [step]; exact onTimerSend_data_sent s ll now ls so po h
  | stop => rw [step, locationStop, locationFinalize_data_sent]; exact h
  | fin => rw [step, locationFinalize_data_sent]; exact h

/-- Claim C4: along every sequence of stimuli, once the `data_sent`
latch is `true` it stays `true`: no operation ever clears it. -/
theorem dataSent_latch (s : St) (ops : List Op) (h : s.loc.data_sent = true) :
    (List.foldl step s ops).loc.data_sent = true := by
  induction ops generalizing s with
  | nil => exact h
  | cons op rest ih => exact ih (step s op) (step_data_sent s op h)

/-- Witness for C4: from the start state, a finalize-then-reinitialize
sequence keeps the latch set. -/
theorem dataSent_latch_witness :
    startState.loc.data_sent = true ∧
    (List.foldl step startState [Op.fin, Op.init true true true none]).loc.data_sent
      = true :=
  ⟨rfl, dataSent_latch startState [Op.fin, Op.init true true true none] rfl⟩

/-- A successful `enableGPS` leaves the flag set whatever happened to
the warm start. -/
theorem enableGPS_sets_flag (s : St) (ll : Option GpsFix) (now : Int)
    (ls : Option SatFix) (so po : Bool) :
    (enableGPS s true ll now ls so po).1.loc.gpsEnabled = true := by
  by_cases hg : s.loc.gpsEnabled = true
  · simp [enableGPS, hg]
  · simp only [Bool.not_eq_true] at hg
    simp [enableGPS, hg]

/-- Function `initData` emits no callback registration. -/
theorem setPosCb_notin_initData (s : St) (ll : Option GpsFix) (now : Int)
    (ls : Option SatFix) (i : Int) :
    Ev.setPosCb i ∉ (initData s ll now ls).2.1 := by
  rcases ll with _ | f <;> rcases ls with _ | f2 <;>
    simp only [initData] <;> split <;> try split
  all_goals simp

/-- Function `sendMessage` emits no callback registration. -/
theorem setPosCb_notin_sendMessage (s : St) (ok : Bool) (b : List (String × String))
    (i : Int) : Ev.setPosCb i ∉ (sendMessage s ok b).1 := by
  simp only [sendMessage]
  split <;> simp

/-- The warm start emits no callback registration. -/
theorem setPosCb_notin_initDataSend (s : St) (ll : Option GpsFix) (now : Int)
    (ls : Option SatFix) (so po : Bool) (i : Int) :
    Ev.setPosCb i ∉ (initDataSend s ll now ls so po).2.1 := by
  have h0 := setPosCb_notin_initData s ll now ls i
  have h1 := setPosCb_notin_sendMessage (initData s ll now ls).1 so
    (satellitePayload (initData s ll now ls).1.sat) i
  have h2 := setPosCb_notin_sendMessage (initData s ll now ls).1 po
    (positionPayload (initData s ll now ls).1.gps) i
  simp only [initDataSend, sendSatellite, sendPosition]
  split
  · exact h0
  · split
    · simp [h0, h1]
    · split <;> simp [h0, h1, h2]

/-- Claim C8: `enableGPS` is idempotent: after a successful call the
next call is a pure no-op returning `true`; a call with the flag
already set is a pure no-op; and across two consecutive calls the
position callback is registered exactly once. -/
theorem enableGPS_idem (s : St) (ll : Option GpsFix) (now : Int) (ls : Option SatFix)
    (so po : Bool) :
    enableGPS (enableGPS s true ll now ls so po).1 true ll now ls so po =
      ((enableGPS s true ll now ls so po).1, [], true) ∧
    (s.loc.gpsEnabled = true → enableGPS s true ll now ls so po = (s, [], true)) ∧
    (s.loc.gpsEnabled = false →
      List.count (Ev.setPosCb POSITION_UPDATE_INTERVAL)
        ((enableGPS s true ll now ls so po).2.1 ++
         (enableGPS (enableGPS s true ll now ls so po).1 true ll now ls so po).2.1)
        = 1) := by
  have hf := enableGPS_sets_flag s ll now ls so po
  have hsecond :
      enableGPS (enableGPS s true ll now ls so po).1 true ll now ls so po =
        ((enableGPS s true ll now ls so po).1, [], true) := by
    rw [enableGPS]
    simp [hf]
  refine ⟨hsecond, fun h => by simp [enableGPS, h], fun h => ?_⟩
  have hn := setPosCb_notin_initDataSend s ll now ls so po POSITION_UPDATE_INTERVAL
  rw [hsecond]
  simp only [enableGPS, h]
  repeat' split
  all_goals simp_all [List.count_eq_zero, List.mem_append, hn]

/-- Witness for C8: both guard situations at concrete states. -/
theorem enableGPS_idem_witness :
    (enableGPS (enableGPS startState true none 0 none true true).1 true none 0
        none true true =
      ((enableGPS startState true none 0 none true true).1, [], true)) ∧
    (List.count (Ev.setPosCb POSITION_UPDATE_INTERVAL)
      ((enableGPS startState true none 0 none true true).2.1 ++
       (enableGPS (enableGPS startState true none 0 none true true).1 true none 0
          none true true).2.1) = 1) ∧
    (enableGPS { startState with loc := { startState.loc with gpsEnabled := true } }
        true none 0 none true true =
      ({ startState with loc := { startState.loc with gpsEnabled := true } }, [], true)) :=
  ⟨(enableGPS_idem startState none 0 none true true).1,
   (enableGPS_idem startState none 0 none true true).2.2 rfl,
   (enableGPS_idem { startState with loc := { startState.loc with gpsEnabled := true } }
      none 0 none true true).2.1 rfl⟩

end GpsService
